import Mathlib

/-!
Verification of the Flask app with Vault secrets bootstrap (src/app/app.py).

The module-level bootstrap reads /vault/secrets/flask.txt if it exists and,
for each line starting with the literal text followed by a blank, namely
export followed by a space, runs:
    key, val = line.replace(export-space, empty).strip().split(eq-sign, 1)
    os.environ[key] = val.strip(quote)
Then Flask serves GET / and GET /health on port 8080.

We embed the string operations over List Char with the exact Python
semantics (replace removes every non-overlapping occurrence left to right,
strip removes leading and trailing characters, split with maxsplit 1 splits
on the first separator and unpacking fails when no separator is present),
the bootstrap loop as a fold that fails on a malformed line, and the
process lifecycle (module-level bootstrap once, then the serving loop)
as a small state machine.
-/

namespace VaultLab

/-- Python whitespace characters stripped by str.strip() (ASCII range). -/
def isPySpace (c : Char) : Bool :=
  c = ' ' || c = '\t' || c = '\n' || c = '\r' || c = '\x0b' || c = '\x0c'

/-- The literal pattern used at app.py line 8 and 9: export followed by a space. -/
def exportPat : List Char := "export ".toList

/-- Python s.startswith(pat) (app.py line 8). -/
def pyStartswith (s pat : List Char) : Bool :=
  pat.isPrefixOf s

/-- Fueled worker for Python str.replace with an empty replacement:
delete every non-overlapping occurrence of pat, scanning left to right.
The fuel is structural so that the kernel can evaluate it; fuel equal to
the length of the string suffices for a nonempty pattern. -/
def replaceDelAux (pat : List Char) : Nat → List Char → List Char
  | 0, s => s
  | _ + 1, [] => []
  | fuel + 1, c :: rest =>
    if pat.isPrefixOf (c :: rest) then
      replaceDelAux pat fuel ((c :: rest).drop pat.length)
    else
      c :: replaceDelAux pat fuel rest

/-- Python s.replace(pat, empty string) for a nonempty pat (app.py line 9). -/
def replaceDel (pat s : List Char) : List Char :=
  replaceDelAux pat s.length s

/-- Python s.strip(chars p): remove leading and trailing characters
satisfying p (app.py line 9 with whitespace, line 10 with the quote). -/
def pyStrip (p : Char → Bool) (s : List Char) : List Char :=
  ((s.dropWhile p).reverse.dropWhile p).reverse

/-- Python s.split(sep, 1) unpacked into two names: some (before, after)
at the first occurrence of sep, none when sep does not occur (in which
case the unpacking at app.py line 9 raises ValueError). -/
def splitFirst (sep : Char) : List Char → Option (List Char × List Char)
  | [] => none
  | c :: rest =>
    if c = sep then some ([], rest)
    else
      match splitFirst sep rest with
      | none => none
      | some (a, b) => some (c :: a, b)

/-- The process environment: a mapping from names to optional values. -/
def Env : Type := List Char → Option (List Char)

/-- os.environ[k] = v: overwrite the binding for k (app.py line 10). -/
def updateEnv (e : Env) (k v : List Char) : Env :=
  fun x => if x = k then some v else e x

/-- The empty environment. -/
def emptyEnv : Env := fun _ => none

/-- The parse of one matching line, app.py line 9 and the value part of
line 10: replace every occurrence of the export pattern, strip whitespace
from the whole resulting string, split on the first eq-sign, then strip
surrounding quote characters from the value.  none models the unhandled
ValueError when no eq-sign is present. -/
def parseLine (line : List Char) : Option (List Char × List Char) :=
  match splitFirst '=' (pyStrip isPySpace (replaceDel exportPat line)) with
  | none => none
  | some (k, v) => some (k, pyStrip (fun c => c = '"') v)

/-- Processing of one line of the secrets file (app.py lines 8 to 10):
lines not starting with the export pattern are skipped; a matching line
is parsed and its pair written to the environment; none is the fatal
unhandled error on a malformed matching line. -/
def processLine (env : Env) (line : List Char) : Option Env :=
  if pyStartswith line exportPat then
    match parseLine line with
    | none => none
    | some (k, v) => some (updateEnv env k v)
  else
    some env

/-- The bootstrap loop over the lines of the secrets file (app.py
lines 6 to 10), stopping at the first fatal line. -/
def bootstrapLines (env : Env) : List (List Char) → Option Env
  | [] => some env
  | l :: ls =>
    match processLine env l with
    | none => none
    | some e => bootstrapLines e ls

/-- Module-level startup (app.py lines 4 to 10): the optional file models
os.path.exists on the fixed path; when the file is absent nothing runs. -/
def startup (file : Option (List (List Char))) (env : Env) : Option Env :=
  match file with
  | none => some env
  | some lines => bootstrapLines env lines

/-- os.getenv k with a default (app.py line 17). -/
def getenv (env : Env) (k d : List Char) : List Char :=
  match env k with
  | some v => v
  | none => d

/-- The body of GET / (app.py line 17). -/
def helloBody (env : Env) : List Char :=
  "Hello from Flask! Environment: ".toList
    ++ getenv env ("ENV".toList) ("dev".toList)
    ++ " | DB: ".toList
    ++ getenv env ("DB_PASSWORD".toList) ("not set".toList)

/-- A request to the server: the two registered routes, or any other path. -/
inductive Req
  | root
  | health
  | other (path : List Char)

/-- A response body: plain text, a structured mapping, or the framework
default not-found page. -/
inductive RespBody
  | text (s : List Char)
  | json (fields : List (List Char × List Char))
  | notFound

/-- A response: body and status code. -/
def Resp : Type := RespBody × Nat

/-- The request handlers (app.py lines 15 to 21); unknown routes get the
framework default 404. -/
def handleReq (env : Env) : Req → Resp
  | Req.root => (RespBody.text (helloBody env), 200)
  | Req.health => (RespBody.json [("status".toList, "ok".toList)], 200)
  | Req.other _ => (RespBody.notFound, 404)

/-- Lifecycle phase of the process: running module-level code, serving
requests from app.run, or dead after an unhandled startup error. -/
inductive Phase
  | Booting
  | Serving
  | Failed
deriving DecidableEq

/-- Process state: phase, environment, how many times the secrets file
has been opened, and the responses produced so far. -/
structure PState where
  phase : Phase
  env : Env
  fileReads : Nat
  handled : List Resp

/-- Initial process state. -/
def initState (env0 : Env) : PState :=
  { phase := Phase.Booting, env := env0, fileReads := 0, handled := [] }

/-- The module-level code runs once: it opens the secrets file when the
file exists, and either reaches app.run (Serving) or dies on an unhandled
error (Failed). -/
def bootStep (file : Option (List (List Char))) (s : PState) : PState :=
  match s.phase with
  | Phase.Booting =>
    let reads := s.fileReads + (if file.isSome then 1 else 0)
    match startup file s.env with
    | some e => { phase := Phase.Serving, env := e, fileReads := reads, handled := s.handled }
    | none => { phase := Phase.Failed, env := s.env, fileReads := reads, handled := s.handled }
  | _ => s

/-- One request served by app.run: only a Serving process answers, and
handling a request touches neither the environment nor the file. -/
def serveStep (s : PState) (r : Req) : PState :=
  match s.phase with
  | Phase.Serving => { s with handled := s.handled ++ [handleReq s.env r] }
  | _ => s

/-- The whole process: module-level code once, then the serving loop. -/
def runProc (file : Option (List (List Char))) (env0 : Env) (reqs : List Req) : PState :=
  reqs.foldl serveStep (bootStep file (initState env0))

/-- Claim C1 reading of one matching line, written from the claim words:
strip the leading export pattern once, split the remainder at the first
eq-sign, strip surrounding whitespace from the key and from the value
separately, then strip surrounding quotes from the value. -/
def claimLineSpec (line : List Char) : Option (List Char × List Char) :=
  match splitFirst '=' (line.drop exportPat.length) with
  | none => none
  | some (k, v) =>
    some (pyStrip isPySpace k, pyStrip (fun c => c = '"') (pyStrip isPySpace v))

/-- The amended claim C1 reading of one matching line: delete every
occurrence of the export pattern anywhere in the line, strip whitespace
from the whole resulting string (never from the key or the value
separately), split at the first eq-sign (here phrased as a span), and
strip surrounding quotes from the value only. -/
def amendedLineSpec (line : List Char) : Option (List Char × List Char) :=
  let cleaned := pyStrip isPySpace (replaceDel exportPat line)
  let key := cleaned.takeWhile (fun c => !(c = '='))
  let rest := cleaned.dropWhile (fun c => !(c = '='))
  match rest with
  | [] => none
  | _ :: after => some (key, pyStrip (fun c => c = '"') after)

/-- When the separator does not occur in the string, the split fails. -/
theorem splitFirst_eq_none (sep : Char) (s : List Char) (h : sep ∉ s) :
    splitFirst sep s = none := by
  induction s with
  | nil => rfl
  | cons c rest ih =>
    have hc : ¬ c = sep := by
      intro hc
      exact h (by simp [hc])
    have hr : sep ∉ rest := fun hm => h (List.mem_cons_of_mem c hm)
    simp [splitFirst, hc, ih hr]

/-- Deleting occurrences of a pattern introduces no new characters. -/
theorem mem_of_mem_replaceDelAux (pat : List Char) (a : Char) :
    ∀ (fuel : Nat) (s : List Char), a ∈ replaceDelAux pat fuel s → a ∈ s := by
  intro fuel
  induction fuel with
  | zero =>
    intro s h
    simp only [replaceDelAux] at h
    exact h
  | succ n ih =>
    intro s h
    cases s with
    | nil => simp [replaceDelAux] at h
    | cons c rest =>
      rw [replaceDelAux] at h
      by_cases hp : pat.isPrefixOf (c :: rest) = true
      · rw [if_pos hp] at h
        exact List.mem_of_mem_drop (ih _ h)
      · rw [if_neg hp] at h
        rcases List.mem_cons.mp h with h1 | h2
        · simp [h1]
        · exact List.mem_cons_of_mem c (ih _ h2)

/-- Stripping characters from both ends introduces no new characters. -/
theorem mem_of_mem_pyStrip (p : Char → Bool) (a : Char) (s : List Char)
    (h : a ∈ pyStrip p s) : a ∈ s := by
  unfold pyStrip at h
  rw [List.mem_reverse] at h
  have h2 : a ∈ (s.dropWhile p).reverse := (List.dropWhile_sublist p).mem h
  rw [List.mem_reverse] at h2
  exact (List.dropWhile_sublist p).mem h2

/-- A list decomposes as its verified leading pattern plus the rest. -/
theorem eq_append_drop_of_isPrefixOf (p l : List Char)
    (h : p.isPrefixOf l = true) : l = p ++ l.drop p.length := by
  rw [ List.isPrefixOf_iff_prefix] at h
  obtain ⟨t, ht⟩ := h
  rw [← ht, List.drop_left]

/-- A matching line with no eq-sign after the stripped pattern makes the
single-line parse fail (the unhandled ValueError at app.py line 9). -/
theorem processLine_malformed (env : Env) (l : List Char)
    (hpre : pyStartswith l exportPat = true)
    (hne : '=' ∉ l.drop exportPat.length) :
    processLine env l = none := by
  have hl : l = exportPat ++ l.drop exportPat.length :=
    eq_append_drop_of_isPrefixOf exportPat l hpre
  have hnl : '=' ∉ l := by
    intro hm
    rw [hl] at hm
    rcases List.mem_append.mp hm with h1 | h2
    · exact absurd h1 (by decide)
    · exact hne h2
  have hsp : splitFirst '=' (pyStrip isPySpace (replaceDel exportPat l)) = none := by
    apply splitFirst_eq_none
    intro hm
    exact hnl (mem_of_mem_replaceDelAux exportPat '=' l.length l
      (mem_of_mem_pyStrip _ _ _ hm))
  simp [processLine, parseLine, hpre, hsp]

/-- One line whose parse always fails makes the whole bootstrap fail. -/
theorem bootstrapLines_none_of_fatal (l : List Char)
    (hl : ∀ env : Env, processLine env l = none) :
    ∀ (lines : List (List Char)) (env : Env), l ∈ lines →
      bootstrapLines env lines = none := by
  intro lines
  induction lines with
  | nil =>
    intro env h
    cases h
  | cons x xs ih =>
    intro env hmem
    rcases List.mem_cons.mp hmem with h1 | h2
    · subst h1
      simp [bootstrapLines, hl env]
    · cases hx : processLine env x with
      | none => simp [bootstrapLines, hx]
      | some e =>
        simp only [bootstrapLines, hx]
        exact ih e h2

/-- The bootstrap loop splits over concatenation of the line list. -/
theorem bootstrapLines_append (ls₁ ls₂ : List (List Char)) :
    ∀ env : Env, bootstrapLines env (ls₁ ++ ls₂) =
      (bootstrapLines env ls₁).bind fun e => bootstrapLines e ls₂ := by
  induction ls₁ with
  | nil =>
    intro env
    rfl
  | cons l ls ih =>
    intro env
    simp only [List.cons_append, bootstrapLines]
    cases hx : processLine env l with
    | none => simp
    | some e => simpa using ih e

/-- A process that is not serving ignores every request. -/
theorem foldl_serveStep_stuck (reqs : List Req) (s : PState)
    (h : ¬ s.phase = Phase.Serving) : reqs.foldl serveStep s = s := by
  induction reqs with
  | nil => rfl
  | cons r rs ih =>
    rw [List.foldl_cons]
    have hs : serveStep s r = s := by
      unfold serveStep
      cases hp : s.phase with
      | Booting => rfl
      | Serving => exact absurd hp h
      | Failed => rfl
    rw [hs]
    exact ih

/-- A serving process answers every request from its fixed environment,
touching neither the environment nor the file. -/
theorem foldl_serveStep_serving (reqs : List Req) :
    ∀ (e : Env) (n : Nat) (acc : List Resp),
      reqs.foldl serveStep ⟨Phase.Serving, e, n, acc⟩ =
        ⟨Phase.Serving, e, n, acc ++ reqs.map (handleReq e)⟩ := by
  induction reqs with
  | nil =>
    intro e n acc
    simp
  | cons r rs ih =>
    intro e n acc
    rw [List.foldl_cons]
    have hs : serveStep ⟨Phase.Serving, e, n, acc⟩ r =
        ⟨Phase.Serving, e, n, acc ++ [handleReq e r]⟩ := rfl
    rw [hs, ih, List.map_cons]
    simp

/-- The recursive first-eq-sign split agrees with the span formulation
used by the amended claim wording. -/
theorem splitFirst_eq_span (sep : Char) (s : List Char) :
    splitFirst sep s =
      match s.dropWhile (fun c => !(c = sep)) with
      | [] => none
      | _ :: after => some (s.takeWhile (fun c => !(c = sep)), after) := by
  induction s with
  | nil => rfl
  | cons c rest ih =>
    by_cases hc : c = sep
    · subst hc
      simp [splitFirst, List.dropWhile_cons, List.takeWhile_cons]
    · have hpc : (!decide (c = sep)) = true := by simp [hc]
      rw [splitFirst, if_neg hc, ih, List.dropWhile_cons, List.takeWhile_cons, hpc]
      simp only [if_true]
      cases hd : rest.dropWhile (fun x => !decide (x = sep)) <;> simp [hd]

/-- The code parse of a matching line agrees with the amended wording. -/
theorem parseLine_eq_amended (l : List Char) :
    parseLine l = amendedLineSpec l := by
  unfold parseLine amendedLineSpec
  rw [splitFirst_eq_span]
  cases hd : (pyStrip isPySpace (replaceDel exportPat l)).dropWhile
      (fun c => !(c = '=')) <;> simp [hd]

/-- Claim C1 as stated is false: on the line export KEY space eq v, the
claim wording stores the pair (KEY, v), but the code never strips the key
separately, so it stores the key with its trailing space and leaves the
claimed key unset. -/
theorem c1_counterexample :
    pyStartswith ("export KEY =v".toList) exportPat = true ∧
    claimLineSpec ("export KEY =v".toList) = some ("KEY".toList, "v".toList) ∧
    parseLine ("export KEY =v".toList) = some ("KEY ".toList, "v".toList) ∧
    (processLine emptyEnv ("export KEY =v".toList)).map
      (fun e => e ("KEY".toList)) = some none ∧
    (processLine emptyEnv ("export KEY =v".toList)).map
      (fun e => e ("KEY ".toList)) = some (some ("v".toList)) := by
  decide

/-- Claim C1 amended: for every line starting with the export pattern, the
bootstrapper deletes every occurrence of the pattern, strips whitespace
from the whole resulting string (never from the key or the value
separately), splits at the first eq-sign, strips surrounding quotes from
the value, and stores the resulting pair; with no eq-sign the parse
fails. -/
theorem c1_amended_line_effect (env : Env) (l : List Char)
    (h : pyStartswith l exportPat = true) :
    processLine env l =
      (amendedLineSpec l).map (fun kv => updateEnv env kv.1 kv.2) := by
  unfold processLine
  rw [if_pos h, parseLine_eq_amended]
  cases amendedLineSpec l <;> simp

/-- Concrete instance of the amended claim C1 on a well-formed line. -/
theorem c1_amended_line_effect_witness :
    pyStartswith ("export DB_PASSWORD=\"secret123\"".toList) exportPat = true ∧
    processLine emptyEnv ("export DB_PASSWORD=\"secret123\"".toList) =
      (amendedLineSpec ("export DB_PASSWORD=\"secret123\"".toList)).map
        (fun kv => updateEnv emptyEnv kv.1 kv.2) :=
  ⟨by decide,
   c1_amended_line_effect emptyEnv ("export DB_PASSWORD=\"secret123\"".toList)
     (by decide)⟩

/-- Claim C2: a secrets line starting with the export pattern but holding
no eq-sign after the stripped pattern makes the bootstrap parse fail with
an unhandled error, and the process never serves any request. -/
theorem c2_malformed_line_fatal (env : Env) (lines : List (List Char))
    (l : List Char) (reqs : List Req)
    (hmem : l ∈ lines)
    (hpre : pyStartswith l exportPat = true)
    (hne : '=' ∉ l.drop exportPat.length) :
    startup (some lines) env = none ∧
    (runProc (some lines) env reqs).phase = Phase.Failed ∧
    (runProc (some lines) env reqs).handled = [] := by
  have hfail : ∀ e : Env, processLine e l = none := fun e =>
    processLine_malformed e l hpre hne
  have hs : startup (some lines) env = none :=
    bootstrapLines_none_of_fatal l hfail lines env hmem
  have hb : bootStep (some lines) (initState env) =
      { phase := Phase.Failed, env := env, fileReads := 1, handled := [] } := by
    simp [bootStep, initState, hs]
  have hr : runProc (some lines) env reqs =
      { phase := Phase.Failed, env := env, fileReads := 1, handled := [] } := by
    unfold runProc
    rw [hb]
    exact foldl_serveStep_stuck reqs _ (by simp)
  exact ⟨hs, by rw [hr], by rw [hr]⟩

/-- Concrete instance of claim C2: one malformed line kills startup. -/
theorem c2_malformed_line_fatal_witness :
    (("export FOO".toList) ∈ [("export FOO".toList)]) ∧
    pyStartswith ("export FOO".toList) exportPat = true ∧
    ('=' ∉ ("export FOO".toList).drop exportPat.length) ∧
    (startup (some [("export FOO".toList)]) emptyEnv = none ∧
     (runProc (some [("export FOO".toList)]) emptyEnv [Req.health]).phase =
       Phase.Failed ∧
     (runProc (some [("export FOO".toList)]) emptyEnv [Req.health]).handled = []) :=
  ⟨by decide, by decide, by decide,
   c2_malformed_line_fatal emptyEnv [("export FOO".toList)] ("export FOO".toList)
     [Req.health] (by decide) (by decide) (by decide)⟩

/-- Claim C3: GET / answers 200 with exactly the greeting body built from
the current value of ENV (default dev) and DB_PASSWORD (default not set),
for every environment. -/
theorem c3_root_route (env : Env) :
    handleReq env Req.root =
      (RespBody.text ("Hello from Flask! Environment: ".toList
        ++ (env ("ENV".toList)).getD ("dev".toList)
        ++ " | DB: ".toList
        ++ (env ("DB_PASSWORD".toList)).getD ("not set".toList)), 200) := by
  unfold handleReq helloBody getenv
  cases env ("ENV".toList) <;> cases env ("DB_PASSWORD".toList) <;> rfl

/-- Claim C4: GET /health answers 200 with the structured body having the
single field status mapped to ok, for every environment, so the response
does not depend on any environment variable. -/
theorem c4_health_route (env : Env) :
    handleReq env Req.health =
      (RespBody.json [("status".toList, "ok".toList)], 200) := rfl

/-- Claim C5: a secrets line that does not start with the export pattern
is skipped silently and the environment mapping is returned unchanged. -/
theorem c5_non_export_line_skipped (env : Env) (l : List Char)
    (h : pyStartswith l exportPat = false) :
    processLine env l = some env := by
  simp [processLine, h]

/-- Concrete instance of claim C5 on a non-matching line. -/
theorem c5_non_export_line_skipped_witness :
    pyStartswith ("DB_HOST=localhost".toList) exportPat = false ∧
    processLine emptyEnv ("DB_HOST=localhost".toList) = some emptyEnv :=
  ⟨by decide,
   c5_non_export_line_skipped emptyEnv ("DB_HOST=localhost".toList) (by decide)⟩

/-- Claim C6: last write wins: whatever value the environment already has
for a key, after processing one more matching line for that key the
bootstrap environment maps the key to the value of that last line. -/
theorem c6_last_write_wins (env e' : Env) (ls : List (List Char))
    (l k v : List Char)
    (h1 : bootstrapLines env ls = some e')
    (h2 : pyStartswith l exportPat = true)
    (h3 : parseLine l = some (k, v)) :
    bootstrapLines env (ls ++ [l]) = some (updateEnv e' k v) ∧
    updateEnv e' k v k = some v := by
  constructor
  · rw [bootstrapLines_append ls [l] env, h1]
    simp [bootstrapLines, processLine, h2, h3]
  · simp [updateEnv]

/-- Concrete instance of claim C6: two lines writing the same key, the
second value survives. -/
theorem c6_last_write_wins_witness :
    bootstrapLines emptyEnv [("export K=\"a\"".toList)] =
      some (updateEnv emptyEnv ("K".toList) ("a".toList)) ∧
    pyStartswith ("export K=\"b\"".toList) exportPat = true ∧
    parseLine ("export K=\"b\"".toList) = some ("K".toList, "b".toList) ∧
    (bootstrapLines emptyEnv
        ([("export K=\"a\"".toList)] ++ [("export K=\"b\"".toList)]) =
      some (updateEnv (updateEnv emptyEnv ("K".toList) ("a".toList))
        ("K".toList) ("b".toList)) ∧
     updateEnv (updateEnv emptyEnv ("K".toList) ("a".toList))
        ("K".toList) ("b".toList) ("K".toList) = some ("b".toList)) :=
  ⟨rfl, by decide, by decide,
   c6_last_write_wins emptyEnv (updateEnv emptyEnv ("K".toList) ("a".toList))
     [("export K=\"a\"".toList)] ("export K=\"b\"".toList)
     ("K".toList) ("b".toList) rfl (by decide) (by decide)⟩

/-- Claim C7: with no secrets file at the fixed path, startup changes no
environment variable and the server serves every request normally from
the unchanged environment, without opening the file. -/
theorem c7_no_file_noop (env : Env) (reqs : List Req) :
    startup none env = some env ∧
    runProc none env reqs =
      { phase := Phase.Serving, env := env, fileReads := 0,
        handled := reqs.map (handleReq env) } := by
  refine ⟨rfl, ?_⟩
  unfold runProc
  have hb : bootStep none (initState env) =
      { phase := Phase.Serving, env := env, fileReads := 0, handled := [] } := rfl
  rw [hb, foldl_serveStep_serving]
  simp

/-- Claim C8: when the module-level bootstrap succeeds, the secrets file
is opened exactly once when present and never when absent, always before
serving; afterwards every request is answered from the one post-bootstrap
environment, which no request changes. -/
theorem c8_bootstrap_once_before_serving (file : Option (List (List Char)))
    (env0 e : Env) (reqs : List Req)
    (h : startup file env0 = some e) :
    runProc file env0 reqs =
      { phase := Phase.Serving, env := e,
        fileReads := if file.isSome then 1 else 0,
        handled := reqs.map (handleReq e) } := by
  unfold runProc
  have hb : bootStep file (initState env0) =
      { phase := Phase.Serving, env := e,
        fileReads := if file.isSome then 1 else 0, handled := [] } := by
    simp [bootStep, initState, h]
  rw [hb, foldl_serveStep_serving]
  simp

/-- Concrete instance of claim C8: one secrets line, one request. -/
theorem c8_bootstrap_once_before_serving_witness :
    startup (some [("export DB_PASSWORD=\"secret123\"".toList)]) emptyEnv =
      some (updateEnv emptyEnv ("DB_PASSWORD".toList) ("secret123".toList)) ∧
    runProc (some [("export DB_PASSWORD=\"secret123\"".toList)]) emptyEnv
        [Req.root] =
      { phase := Phase.Serving,
        env := updateEnv emptyEnv ("DB_PASSWORD".toList) ("secret123".toList),
        fileReads :=
          if (some [("export DB_PASSWORD=\"secret123\"".toList)]).isSome
          then 1 else 0,
        handled := [Req.root].map (handleReq
          (updateEnv emptyEnv ("DB_PASSWORD".toList) ("secret123".toList))) } :=
  ⟨rfl,
   c8_bootstrap_once_before_serving
     (some [("export DB_PASSWORD=\"secret123\"".toList)]) emptyEnv
     (updateEnv emptyEnv ("DB_PASSWORD".toList) ("secret123".toList))
     [Req.root] rfl⟩

/-- Claim C9: the replace call at app.py line 9 deletes every occurrence
of the export pattern in the line, not only the leading one: in the line
export KEY eq quote export abc quote, the stored value is abc, with the
inner export text and its trailing space removed. -/
theorem c9_replace_removes_all_occurrences (env : Env) :
    pyStartswith ("export KEY=\"export abc\"".toList) exportPat = true ∧
    replaceDel exportPat ("export KEY=\"export abc\"".toList) =
      ("KEY=\"abc\"".toList) ∧
    parseLine ("export KEY=\"export abc\"".toList) =
      some ("KEY".toList, "abc".toList) ∧
    processLine env ("export KEY=\"export abc\"".toList) =
      some (updateEnv env ("KEY".toList) ("abc".toList)) :=
  ⟨by decide, by decide, by decide, rfl⟩

/-- Claim C10: whitespace is stripped only from the whole line: in the
line export KEY space eq space quote V quote, the stored key keeps its
trailing space, and the stored value keeps its leading space, which also
shields the leading quote from being stripped. -/
theorem c10_whole_line_strip_only (env : Env) :
    parseLine ("export KEY = \"V\"".toList) =
      some ("KEY ".toList, (" \"V").toList) ∧
    processLine env ("export KEY = \"V\"".toList) =
      some (updateEnv env ("KEY ".toList) ((" \"V").toList)) :=
  ⟨by decide, rfl⟩

end VaultLab
